import Mathlib

/-!
Verification of the pose-detection system's behavioural specification.

The development shallowly embeds the Python sources:
  * `src/utils.py`   — `ActionBuffer` (action-stability ring buffer),
                       `KeyboardSimulator` (per-key cooldown);
  * `src/pose_detector.py` — `PoseDetector` calibration state machine and
                       per-frame action detection / confidence scoring;
  * `src/audio_manager.py` — `AudioManager` priority speech queue;
  * `src/audio_manager_cantonese_fixed.py` — `CantoneseAudioManagerFixed.speak`.

Python floats are embedded as rationals (`ℚ`); wall-clock times are passed
explicitly to the functions that call `time.time()`.
-/

namespace PoseDetection

/-! ### ActionBuffer (src/utils.py, class ActionBuffer)

The Python class keeps, per action name, a ring buffer of detection booleans,
a boolean trigger state, the start time of the current continuous-true streak
(0 is the "no streak" sentinel) and the streak's duration.  Entries of the
per-action dictionaries are independent, so we embed the state for a single
action.  An action absent from `self.buffers` behaves exactly like the empty
initial state below. -/

structure ActionState where
  buffer : List Bool
  action_state : Bool
  start_time : ℚ
  duration : ℚ
deriving DecidableEq

/-- Per-action view of a freshly constructed `ActionBuffer` (no entry yet). -/
def ActionState.init : ActionState := ⟨[], false, 0, 0⟩

/-- `buffer_size` of the global `action_buffer = ActionBuffer()` instance
(the constructor default, 30 frames). -/
def bufferSize : ℕ := 30

/-- `sum(self.buffers[action])` — number of `True` entries. -/
def countTrue (l : List Bool) : ℕ := (l.filter (fun b => b)).length

/-- `ActionBuffer.add_detection(action, detected)` at wall-clock time `t`
(the Python body reads `time.time()`).  Appends to the ring buffer, pops the
front when the buffer overflows `buffer_size`, and maintains the
start-time/duration bookkeeping of the current continuous-true streak. -/
def addDetection (s : ActionState) (t : ℚ) (detected : Bool) : ActionState :=
  let buf0 := s.buffer ++ [detected]
  let buf := if bufferSize < buf0.length then buf0.tail else buf0
  if detected = true ∧ s.start_time = 0 then
    { s with buffer := buf, start_time := t, duration := 0 }
  else if detected = true ∧ 0 < s.start_time then
    { s with buffer := buf, duration := t - s.start_time }
  else if detected = false then
    { s with buffer := buf, start_time := 0, duration := 0 }
  else
    { s with buffer := buf }

/-- `ActionBuffer.is_action_stable(action, stability_ratio)` (Python default
`stability_ratio=0.8`): `False` until the ring buffer is full; afterwards the
detected ratio must reach `stability_ratio` and the tracked streak duration
must be at least 1 second. -/
def isActionStable (s : ActionState) (stability_ratio : ℚ) : Bool :=
  if s.buffer.length < bufferSize then false
  else
    decide (stability_ratio ≤ (countTrue s.buffer : ℚ) / (s.buffer.length : ℚ)) &&
      decide ((1 : ℚ) ≤ s.duration)

/-- `ActionBuffer.should_trigger_action(action)`: edge-triggered — fires only
on a transition of `is_action_stable` (at the default ratio 0.8) from false to
true, recording the new trigger state.  Returns the fired flag and the
updated state. -/
def shouldTriggerAction (s : ActionState) : Bool × ActionState :=
  let current_stable := isActionStable s 0.8
  let previous_state := s.action_state
  if current_stable && !previous_state then
    (true, { s with action_state := true })
  else if !current_stable then
    (false, { s with action_state := false })
  else
    (false, s)

/-- One detection frame: `add_detection` followed by `should_trigger_action`,
as driven per frame by `PoseDetector._detect_actions` and
`PoseDetector.get_triggered_actions`. -/
def bufferStep (s : ActionState) (e : ℚ × Bool) : ActionState × Bool :=
  let s1 := addDetection s e.1 e.2
  let r := shouldTriggerAction s1
  (r.2, r.1)

/-- Trace of a run: for every frame, the state right after `add_detection`
(before `should_trigger_action` updates the trigger flag) together with the
trigger result of that frame. -/
def runTrace (s : ActionState) : List (ℚ × Bool) → List (ActionState × Bool)
  | [] => []
  | e :: es =>
    let s1 := addDetection s e.1 e.2
    let r := shouldTriggerAction s1
    (s1, r.1) :: runTrace r.2 es

/-- The 30-frame window's true-ratio sits strictly below 0.8 (only meaningful
once the ring buffer is full). -/
def ratioBelow (s : ActionState) : Bool :=
  decide (s.buffer.length = bufferSize) &&
    decide ((countTrue s.buffer : ℚ) / (s.buffer.length : ℚ) < 0.8)

/-- Frame schedule refuting C2: 30 detected frames one second apart (the
trigger fires when the buffer fills), one missed frame at t = 30 (breaking the
continuous streak while the window ratio stays at 29/30), then detected frames
at t = 31, 32 (the streak reaches 1 s again and the trigger fires a second
time, though the ratio never dropped below 0.8). -/
def c2Events : List (ℚ × Bool) :=
  ((List.range 30).map fun i => ((i : ℚ), true)) ++ [(30, false), (31, true), (32, true)]

/-! Helper lemmas about the buffer state machine. -/

theorem addDetection_action_state (s : ActionState) (t : ℚ) (d : Bool) :
    (addDetection s t d).action_state = s.action_state := by
  unfold addDetection
  dsimp only
  split
  · rfl
  · split
    · rfl
    · split <;> rfl

theorem shouldTriggerAction_fst (s : ActionState) :
    (shouldTriggerAction s).1 = (isActionStable s 0.8 && !s.action_state) := by
  unfold shouldTriggerAction
  dsimp only
  cases h : isActionStable s 0.8 <;> cases h2 : s.action_state <;> simp [h, h2]

theorem shouldTriggerAction_state (s : ActionState) :
    (shouldTriggerAction s).2.action_state = isActionStable s 0.8 := by
  unfold shouldTriggerAction
  dsimp only
  cases h : isActionStable s 0.8 <;> cases h2 : s.action_state <;> simp [h, h2]

theorem runTrace_no_refire (evs : List (ℚ × Bool)) :
    ∀ s : ActionState, s.action_state = true →
      (∀ p ∈ runTrace s evs, isActionStable p.1 0.8 = true) →
      ∀ p ∈ runTrace s evs, p.2 = false := by
  induction evs with
  | nil =>
    intro s _ _ p hp
    simp [runTrace] at hp
  | cons e es ih =>
    intro s hs hst p hp
    simp only [runTrace, List.mem_cons] at hp hst
    have hstable : isActionStable (addDetection s e.1 e.2) 0.8 = true :=
      hst _ (Or.inl rfl)
    have hstate : (addDetection s e.1 e.2).action_state = true := by
      rw [addDetection_action_state]; exact hs
    rcases hp with hp | hp
    · subst hp
      rw [shouldTriggerAction_fst, hstable, hstate]
      rfl
    · exact ih _ (by rw [shouldTriggerAction_state]; exact hstable)
        (fun q hq => hst q (Or.inr hq)) p hp

/-- C2 (amended): `should_trigger_action` fires exactly when the buffer is
stable on this call (≥0.8 true-ratio over the full 30-entry window and a
tracked streak of ≥1.0 s) and the action is not already in the triggered
state; each call records the current stability as the new triggered state, so
after a fire the trigger stays suppressed while every subsequent call observes
a stable buffer, and it can fire again only after some call observes an
unstable buffer — which happens either when the window's true-ratio drops
below 0.8 or when the continuous-true streak is broken (a streak break alone
suffices; the ratio need not drop below 0.8). -/
theorem c2_trigger_edge_behavior :
    (∀ (s : ActionState) (t : ℚ) (d : Bool),
      (bufferStep s (t, d)).2 = (isActionStable (addDetection s t d) 0.8 && !s.action_state)) ∧
    (∀ (s : ActionState) (t : ℚ) (d : Bool),
      ((bufferStep s (t, d)).1).action_state = isActionStable (addDetection s t d) 0.8) ∧
    (∀ (evs : List (ℚ × Bool)) (s : ActionState),
      s.action_state = true →
      (∀ p ∈ runTrace s evs, isActionStable p.1 0.8 = true) →
      ∀ p ∈ runTrace s evs, p.2 = false) := by
  refine ⟨?_, ?_, runTrace_no_refire⟩
  · intro s t d
    unfold bufferStep
    dsimp only
    rw [shouldTriggerAction_fst, addDetection_action_state]
  · intro s t d
    unfold bufferStep
    dsimp only
    rw [shouldTriggerAction_state]

/-- C2 witness: a state with a full all-true window, a flagged trigger state
and a 2-second streak stays suppressed on a further stable detected frame. -/
theorem c2_trigger_edge_behavior_witness :
    (runTrace ⟨List.replicate 30 true, true, 1, 2⟩ [(4, true)]).all (fun p => !p.2) = true := by
  have h := c2_trigger_edge_behavior.2.2 [(4, true)] ⟨List.replicate 30 true, true, 1, 2⟩
    rfl (by
      norm_num [runTrace, addDetection, shouldTriggerAction, isActionStable, countTrue,
        bufferSize])
  rw [List.all_eq_true]
  intro p hp
  rw [h p hp]
  rfl

/-- C2 counterexample: running `c2Events` from the fresh state, the trigger
fires twice even though the full 30-frame window's true-ratio never drops
below 0.8 at any call — refuting the claim that a second fire requires the
ratio to first drop below 0.8. -/
theorem c2_counterexample_refire_without_ratio_drop :
    ((runTrace ActionState.init c2Events).filter (fun p => p.2)).length = 2 ∧
    (runTrace ActionState.init c2Events).any (fun p => ratioBelow p.1) = false := by
  norm_num [c2Events, List.range_succ, runTrace, addDetection, shouldTriggerAction,
    isActionStable, countTrue, bufferSize, ActionState.init, ratioBelow]

/-- C3: with the default stability ratio 0.8, `is_action_stable` is false
whenever the ring buffer holds fewer than 30 entries, and with exactly 30
entries it is true iff at least 24 of them (a 0.8 fraction of 30) are true and
the tracked continuous-true streak duration is at least 1.0 second. -/
theorem c3_stability_characterization (s : ActionState) :
    (s.buffer.length < 30 → isActionStable s 0.8 = false) ∧
    (s.buffer.length = 30 →
      (isActionStable s 0.8 = true ↔ 24 ≤ countTrue s.buffer ∧ (1 : ℚ) ≤ s.duration)) := by
  constructor
  · intro h
    simp [isActionStable, bufferSize, h]
  · intro h
    unfold isActionStable bufferSize
    rw [h]
    rw [if_neg (by norm_num)]
    simp only [Bool.and_eq_true, decide_eq_true_eq]
    have h30 : ((30 : ℕ) : ℚ) = (30 : ℚ) := by norm_num
    constructor
    · rintro ⟨h1, h2⟩
      refine ⟨?_, h2⟩
      rw [h30, le_div_iff₀ (by norm_num : (0 : ℚ) < 30)] at h1
      have h24 : (24 : ℚ) ≤ (countTrue s.buffer : ℚ) := by linarith
      exact_mod_cast h24
    · rintro ⟨h1, h2⟩
      refine ⟨?_, h2⟩
      have h24 : (24 : ℚ) ≤ (countTrue s.buffer : ℚ) := by exact_mod_cast h1
      rw [h30, le_div_iff₀ (by norm_num : (0 : ℚ) < 30)]
      linarith

/-- C3 witness: a full window of 30 true entries with a 2-second streak is
stable, and a 10-entry buffer is not. -/
theorem c3_stability_characterization_witness :
    isActionStable ⟨List.replicate 30 true, false, 0, 2⟩ 0.8 = true ∧
    isActionStable ⟨List.replicate 10 true, false, 0, 2⟩ 0.8 = false := by
  constructor
  · exact ((c3_stability_characterization ⟨List.replicate 30 true, false, 0, 2⟩).2
      (by simp)).mpr ⟨by norm_num [countTrue], by norm_num⟩
  · exact (c3_stability_characterization ⟨List.replicate 10 true, false, 0, 2⟩).1 (by simp)

/-! ### Action detection (src/pose_detector.py)

`PoseDetector._extract_pose_features` always produces a dictionary with the
same nine joints, each an `{x, y, z}` record, so pose features are embedded as
a structure with those nine fields (the Python `key in features` checks are
then always true).  Detection only runs in Tracking mode, i.e. with
`self.baseline_pose` set, so the detectors take the baseline as an argument
(the Python `if not self.baseline_pose: return False` guards correspond to
this argument being available). -/

structure FeaturePoint where
  x : ℚ
  y : ℚ
  z : ℚ
deriving DecidableEq

structure PoseFeatures where
  left_wrist : FeaturePoint
  right_wrist : FeaturePoint
  left_ankle : FeaturePoint
  right_ankle : FeaturePoint
  left_shoulder : FeaturePoint
  right_shoulder : FeaturePoint
  left_knee : FeaturePoint
  right_knee : FeaturePoint
  nose : FeaturePoint
deriving DecidableEq

/-- The `'left'` / `'right'` side strings used by the per-side detectors. -/
inductive Side where
  | left
  | right
deriving DecidableEq

/-- The mirror correction `actual_side = 'right' if side == 'left' else 'left'`
applied by every per-side detector. -/
def otherSide : Side → Side
  | .left => .right
  | .right => .left

/-- Lookup of `current_features[f'{side}_wrist']`. -/
def PoseFeatures.wrist (f : PoseFeatures) : Side → FeaturePoint
  | .left => f.left_wrist
  | .right => f.right_wrist

/-- Lookup of `current_features[f'{side}_shoulder']`. -/
def PoseFeatures.shoulder (f : PoseFeatures) : Side → FeaturePoint
  | .left => f.left_shoulder
  | .right => f.right_shoulder

/-- Lookup of `current_features[f'{side}_ankle']`. -/
def PoseFeatures.ankle (f : PoseFeatures) : Side → FeaturePoint
  | .left => f.left_ankle
  | .right => f.right_ankle

/-- Lookup of `current_features[f'{side}_knee']`. -/
def PoseFeatures.knee (f : PoseFeatures) : Side → FeaturePoint
  | .left => f.left_knee
  | .right => f.right_knee

/-- `DetectionThresholds.HAND_RAISE_THRESHOLD` (src/messages.py). -/
def HAND_RAISE_THRESHOLD : ℚ := 0.15

/-- `DetectionThresholds.FOOT_RAISE_THRESHOLD` (src/messages.py). -/
def FOOT_RAISE_THRESHOLD : ℚ := 0.1

/-- `PoseDetector._detect_hand_raise(current_features, side)`. -/
def detectHandRaise (baseline current_features : PoseFeatures) (side : Side) : Bool :=
  let actual_side := otherSide side
  let current_wrist := current_features.wrist actual_side
  let current_shoulder := current_features.shoulder actual_side
  let baseline_wrist := baseline.wrist actual_side
  let baseline_shoulder := baseline.shoulder actual_side
  let current_relative_height := current_wrist.y - current_shoulder.y
  let baseline_relative_height := baseline_wrist.y - baseline_shoulder.y
  let height_diff := baseline_relative_height - current_relative_height
  decide (height_diff > HAND_RAISE_THRESHOLD)

/-- `PoseDetector._detect_foot_raise(current_features, side)`. -/
def detectFootRaise (baseline current_features : PoseFeatures) (side : Side) : Bool :=
  let actual_side := otherSide side
  let current_ankle := current_features.ankle actual_side
  let baseline_ankle := baseline.ankle actual_side
  let height_diff := baseline_ankle.y - current_ankle.y
  decide (height_diff > FOOT_RAISE_THRESHOLD)

/-- `PoseDetector._detect_knee_raise(current_features, side, foot_detected)`. -/
def detectKneeRaise (baseline current_features : PoseFeatures) (side : Side)
    (foot_detected : Bool) : Bool :=
  let actual_side := otherSide side
  let current_knee := current_features.knee actual_side
  let current_ankle := current_features.ankle actual_side
  let baseline_knee := baseline.knee actual_side
  let baseline_ankle := baseline.ankle actual_side
  let current_knee_height := current_knee.y - current_ankle.y
  let baseline_knee_height := baseline_knee.y - baseline_ankle.y
  let height_diff := baseline_knee_height - current_knee_height
  let knee_threshold := FOOT_RAISE_THRESHOLD * 0.7
  let knee_threshold := if foot_detected then knee_threshold * 0.8 else knee_threshold
  decide (height_diff > knee_threshold)

/-- `PoseDetector._detect_head_turn(current_features, direction)`.  Both the
current and the baseline nose positions are taken relative to the *current*
shoulder centre, exactly as in the source. -/
def detectHeadTurn (baseline current_features : PoseFeatures) (direction : Side) : Bool :=
  let current_nose := current_features.nose
  let baseline_nose := baseline.nose
  let shoulder_center_x :=
    (current_features.left_shoulder.x + current_features.right_shoulder.x) / 2
  let current_nose_relative_x := current_nose.x - shoulder_center_x
  let baseline_nose_relative_x := baseline_nose.x - shoulder_center_x
  let x_diff := current_nose_relative_x - baseline_nose_relative_x
  match direction with
  | .left => decide (x_diff < -0.02)
  | .right => decide (x_diff > 0.02)

/-- `PoseDetector._detect_both_hands_raise(current_features, left_hand_detected,
right_hand_detected)`: both single-hand raises must already hold and the raw
left/right shoulder-to-wrist heights must agree within half the hand-raise
threshold. -/
def detectBothHandsRaise (baseline current_features : PoseFeatures)
    (left_hand_detected right_hand_detected : Bool) : Bool :=
  if !(left_hand_detected && right_hand_detected) then false
  else
    let left_wrist := current_features.left_wrist
    let right_wrist := current_features.right_wrist
    let left_shoulder := current_features.left_shoulder
    let right_shoulder := current_features.right_shoulder
    let left_height := left_shoulder.y - left_wrist.y
    let right_height := right_shoulder.y - right_wrist.y
    let height_diff := |left_height - right_height|
    decide (height_diff < HAND_RAISE_THRESHOLD * 0.5)

/-- The nine actions of `_detect_actions` / `Messages.ACTION_KEYS`. -/
inductive Action where
  | left_hand
  | right_hand
  | left_foot
  | right_foot
  | turn_left_head
  | turn_right_head
  | left_knee
  | right_knee
  | both_hands
deriving DecidableEq

/-- Insertion order of the `actions_detected` dictionary in `_detect_actions`
(which is also the iteration order of `action_scores`). -/
def actionOrder : List Action :=
  [.left_hand, .right_hand, .left_foot, .right_foot, .turn_left_head, .turn_right_head,
    .left_knee, .right_knee, .both_hands]

/-- The raw per-action detection results collected at the start of
`_detect_actions` (knee detection feeds on the foot result, both-hands on the
two single-hand results, exactly as in the source). -/
def rawActionDetected (baseline current_features : PoseFeatures) : Action → Bool
  | .left_hand => detectHandRaise baseline current_features .left
  | .right_hand => detectHandRaise baseline current_features .right
  | .left_foot => detectFootRaise baseline current_features .left
  | .right_foot => detectFootRaise baseline current_features .right
  | .turn_left_head => detectHeadTurn baseline current_features .left
  | .turn_right_head => detectHeadTurn baseline current_features .right
  | .left_knee =>
    detectKneeRaise baseline current_features .left
      (detectFootRaise baseline current_features .left)
  | .right_knee =>
    detectKneeRaise baseline current_features .right
      (detectFootRaise baseline current_features .right)
  | .both_hands =>
    detectBothHandsRaise baseline current_features
      (detectHandRaise baseline current_features .left)
      (detectHandRaise baseline current_features .right)

/-- Per-`side` branch of `_calculate_action_confidence` for `left_hand` /
`right_hand` (mirror-corrected; current frame only). -/
def handRaiseConfidence (current_features : PoseFeatures) (side : Side) : ℚ :=
  let actual_side := otherSide side
  let wrist := current_features.wrist actual_side
  let shoulder := current_features.shoulder actual_side
  let height_diff := shoulder.y - wrist.y
  min 1 (max 0 (height_diff / 0.2))

/-- Per-`side` branch of `_calculate_action_confidence` for `left_foot` /
`right_foot`. -/
def footRaiseConfidence (baseline current_features : PoseFeatures) (side : Side) : ℚ :=
  let actual_side := otherSide side
  let ankle := current_features.ankle actual_side
  let baseline_ankle := baseline.ankle actual_side
  let height_diff := baseline_ankle.y - ankle.y
  min 1 (max 0 (height_diff / 0.1))

/-- Per-`side` branch of `_calculate_action_confidence` for `left_knee` /
`right_knee`. -/
def kneeRaiseConfidence (baseline current_features : PoseFeatures) (side : Side) : ℚ :=
  let actual_side := otherSide side
  let knee := current_features.knee actual_side
  let ankle := current_features.ankle actual_side
  let baseline_knee := baseline.knee actual_side
  let baseline_ankle := baseline.ankle actual_side
  let current_height := knee.y - ankle.y
  let baseline_height := baseline_knee.y - baseline_ankle.y
  let height_diff := baseline_height - current_height
  min 1 (max 0 (height_diff / 0.05))

/-- Branch of `_calculate_action_confidence` for `turn_left_head` /
`turn_right_head` (the direction does not enter the formula). -/
def headTurnConfidence (baseline current_features : PoseFeatures) : ℚ :=
  let nose := current_features.nose
  let baseline_nose := baseline.nose
  let shoulder_center_x :=
    (current_features.left_shoulder.x + current_features.right_shoulder.x) / 2
  let current_nose_relative_x := nose.x - shoulder_center_x
  let baseline_nose_relative_x := baseline_nose.x - shoulder_center_x
  let x_diff := |current_nose_relative_x - baseline_nose_relative_x|
  min 1 (max 0 (x_diff / 0.05))

/-- `PoseDetector._calculate_action_confidence(action, current_features,
all_actions)`.  For `both_hands` with one single-hand raise missing the Python
body falls through to the final `return 0.5 if all_actions.get(action) else 0.0`. -/
def calculateActionConfidence (baseline current_features : PoseFeatures)
    (all_actions : Action → Bool) : Action → ℚ
  | .both_hands =>
    if all_actions .left_hand && all_actions .right_hand then
      let left_wrist := current_features.left_wrist
      let right_wrist := current_features.right_wrist
      let left_shoulder := current_features.left_shoulder
      let right_shoulder := current_features.right_shoulder
      let left_height := left_shoulder.y - left_wrist.y
      let right_height := right_shoulder.y - right_wrist.y
      let height_diff := |left_height - right_height|
      let consistency := max 0 (1 - height_diff / 0.1)
      min 1 (consistency + 0.5)
    else if all_actions .both_hands then 0.5 else 0
  | .left_hand => handRaiseConfidence current_features .left
  | .right_hand => handRaiseConfidence current_features .right
  | .left_foot => footRaiseConfidence baseline current_features .left
  | .right_foot => footRaiseConfidence baseline current_features .right
  | .left_knee => kneeRaiseConfidence baseline current_features .left
  | .right_knee => kneeRaiseConfidence baseline current_features .right
  | .turn_left_head => headTurnConfidence baseline current_features
  | .turn_right_head => headTurnConfidence baseline current_features

/-- The `action_scores` dictionary of `_detect_actions`: confidence of every
raw-detected action, in insertion order. -/
def actionScores (baseline current_features : PoseFeatures) : List (Action × ℚ) :=
  actionOrder.filterMap fun a =>
    if rawActionDetected baseline current_features a then
      some (a, calculateActionConfidence baseline current_features
        (rawActionDetected baseline current_features) a)
    else none

/-- Python's `max(keys, key=score)`: scans left to right and keeps the first
element whose score is maximal (replacing only on strictly greater). -/
def maxByScore : Action × ℚ → List (Action × ℚ) → Action × ℚ
  | best, [] => best
  | best, x :: xs => maxByScore (if best.2 < x.2 then x else best) xs

/-- The `detected_actions` dictionary built by `_detect_actions`, as the list
of `(action, detected)` pairs that the final loop feeds to
`action_buffer.add_detection`, in insertion order: the most reliable action
(plus its two constituents when it is `both_hands`) when its confidence
exceeds 0.5, nothing when some action was raw-detected but the best confidence
is at most 0.5, and all nine actions as `false` when nothing was raw-detected. -/
def detectedActionsUpdates (baseline current_features : PoseFeatures) : List (Action × Bool) :=
  match actionScores baseline current_features with
  | [] => actionOrder.map fun a => (a, false)
  | x :: xs =>
    let most_reliable := maxByScore x xs
    if (0.5 : ℚ) < most_reliable.2 then
      if most_reliable.1 = Action.both_hands then
        [(Action.both_hands, true), (Action.left_hand, true), (Action.right_hand, true)]
      else [(most_reliable.1, true)]
    else []

theorem maxByScore_mem (l : List (Action × ℚ)) :
    ∀ b : Action × ℚ, maxByScore b l = b ∨ maxByScore b l ∈ l := by
  induction l with
  | nil => intro b; left; rfl
  | cons x xs ih =>
    intro b
    simp only [maxByScore]
    rcases ih (if b.2 < x.2 then x else b) with h | h
    · rw [h]
      split
      · right; exact List.mem_cons_self x xs
      · left; rfl
    · right; exact List.mem_cons_of_mem x h

theorem maxByScore_le (l : List (Action × ℚ)) :
    ∀ b : Action × ℚ, b.2 ≤ (maxByScore b l).2 ∧ ∀ y ∈ l, y.2 ≤ (maxByScore b l).2 := by
  induction l with
  | nil => intro b; exact ⟨le_refl _, by simp⟩
  | cons x xs ih =>
    intro b
    simp only [maxByScore]
    rcases ih (if b.2 < x.2 then x else b) with ⟨h1, h2⟩
    have hb : b.2 ≤ (if b.2 < x.2 then x else b).2 := by
      split
      · exact le_of_lt (by assumption)
      · exact le_refl _
    have hx : x.2 ≤ (if b.2 < x.2 then x else b).2 := by
      split
      · exact le_refl _
      · exact le_of_not_lt (by assumption)
    refine ⟨le_trans hb h1, ?_⟩
    intro y hy
    rcases List.mem_cons.mp hy with hy | hy
    · subst hy; exact le_trans hx h1
    · exact h2 y hy

/-- Calibrated standing pose used as a concrete baseline: arms down (wrists
0.2 below the shoulders), ankles and knees at rest. -/
def c1Baseline : PoseFeatures where
  left_wrist := ⟨0.6, 0.5, 0⟩
  right_wrist := ⟨0.4, 0.5, 0⟩
  left_ankle := ⟨0.6, 0.9, 0⟩
  right_ankle := ⟨0.4, 0.9, 0⟩
  left_shoulder := ⟨0.6, 0.3, 0⟩
  right_shoulder := ⟨0.4, 0.3, 0⟩
  left_knee := ⟨0.6, 0.7, 0⟩
  right_knee := ⟨0.4, 0.7, 0⟩
  nose := ⟨0.5, 0.2, 0⟩

/-- Current frame for the C1 counterexample: the raw right wrist is raised
well above the shoulder (which the mirror correction reports as a `left_hand`
raise with confidence 1), everything else at baseline. -/
def c1Features : PoseFeatures := { c1Baseline with right_wrist := ⟨0.4, 0.1, 0⟩ }

/-- C1 counterexample: on a frame whose winning action `left_hand` has
confidence 1 > 0.5, `_detect_actions` feeds only `(left_hand, true)` into the
action-stability buffer — contrary to the claim, the other actions of the
9-action catalog (e.g. `left_foot`) are *not* fed `detected=false` on that
frame; they receive no buffer update at all. -/
theorem c1_counterexample_losers_not_fed :
    detectedActionsUpdates c1Baseline c1Features = [(Action.left_hand, true)] ∧
    (Action.left_foot, false) ∉ detectedActionsUpdates c1Baseline c1Features := by
  have h : detectedActionsUpdates c1Baseline c1Features = [(Action.left_hand, true)] := by
    norm_num [detectedActionsUpdates, actionScores, actionOrder, rawActionDetected,
      detectHandRaise, detectFootRaise, detectKneeRaise, detectHeadTurn, detectBothHandsRaise,
      calculateActionConfidence, handRaiseConfidence, footRaiseConfidence, kneeRaiseConfidence,
      headTurnConfidence, maxByScore, otherSide, PoseFeatures.wrist, PoseFeatures.shoulder,
      PoseFeatures.ankle, PoseFeatures.knee, HAND_RAISE_THRESHOLD, FOOT_RAISE_THRESHOLD,
      c1Baseline, c1Features, min_def, max_def, List.filterMap_cons, List.filterMap_nil]
    intro h
    exact Action.noConfusion h
  refine ⟨h, ?_⟩
  rw [h]
  simp

/-- C1 (amended): per processed Tracking frame, `_detect_actions` accepts only
the single most confident raw-detected action, and only when its confidence
exceeds 0.5: on every frame with raw detections whose most reliable entry
scores above 0.5, that winning action is fed into the action-stability buffer
as `detected=true` (and when it is `both_hands`, `left_hand` and `right_hand`
are fed `true` as well); conversely every `true` update is such a dominant
above-0.5 winner or one of its constituents.  The remaining actions are fed
`detected=false` only on frames where *no* action was raw-detected (then all
nine are fed `false`); on a frame with an accepted winner no other action
receives a buffer update, and when the best confidence is at most 0.5 nothing
is fed at all. -/
theorem c1_single_winner_updates (baseline current_features : PoseFeatures) :
    (∀ a : Action, (a, true) ∈ detectedActionsUpdates baseline current_features →
      ∃ best ∈ actionScores baseline current_features, (0.5 : ℚ) < best.2 ∧
        (∀ y ∈ actionScores baseline current_features, y.2 ≤ best.2) ∧
        (a = best.1 ∨ (best.1 = Action.both_hands ∧
          (a = Action.left_hand ∨ a = Action.right_hand)))) ∧
    (∀ a : Action, (a, false) ∈ detectedActionsUpdates baseline current_features →
      actionScores baseline current_features = []) ∧
    (actionScores baseline current_features = [] →
      detectedActionsUpdates baseline current_features = actionOrder.map fun a => (a, false)) ∧
    (∀ (x : Action × ℚ) (xs : List (Action × ℚ)),
      actionScores baseline current_features = x :: xs →
      (0.5 : ℚ) < (maxByScore x xs).2 →
      detectedActionsUpdates baseline current_features =
        (if (maxByScore x xs).1 = Action.both_hands then
          [(Action.both_hands, true), (Action.left_hand, true), (Action.right_hand, true)]
        else [((maxByScore x xs).1, true)]) ∧
      ((maxByScore x xs).1, true) ∈ detectedActionsUpdates baseline current_features ∧
      ((maxByScore x xs).1 = Action.both_hands →
        (Action.left_hand, true) ∈ detectedActionsUpdates baseline current_features ∧
        (Action.right_hand, true) ∈ detectedActionsUpdates baseline current_features)) ∧
    (∀ (x : Action × ℚ) (xs : List (Action × ℚ)),
      actionScores baseline current_features = x :: xs →
      ¬ (0.5 : ℚ) < (maxByScore x xs).2 →
      detectedActionsUpdates baseline current_features = []) := by
  rcases hsc : actionScores baseline current_features with _ | ⟨x, xs⟩
  · refine ⟨?_, ?_, ?_, ?_, ?_⟩
    · intro a ha
      simp [detectedActionsUpdates, hsc] at ha
    · intro a _
      rfl
    · intro _
      simp [detectedActionsUpdates, hsc]
    · intro x' xs' heq
      exact absurd heq (by simp)
    · intro x' xs' heq
      exact absurd heq (by simp)
  · have hmem : maxByScore x xs ∈ x :: xs := by
      rcases maxByScore_mem xs x with h | h
      · rw [h]; exact List.mem_cons_self x xs
      · exact List.mem_cons_of_mem x h
    have hbound : ∀ y ∈ x :: xs, y.2 ≤ (maxByScore x xs).2 := by
      intro y hy
      rcases List.mem_cons.mp hy with hy | hy
      · subst hy; exact (maxByScore_le xs y).1
      · exact (maxByScore_le xs x).2 y hy
    refine ⟨?_, ?_, ?_, ?_, ?_⟩
    · intro a ha
      simp only [detectedActionsUpdates, hsc] at ha
      by_cases h05 : (0.5 : ℚ) < (maxByScore x xs).2
      · rw [if_pos h05] at ha
        by_cases hbh : (maxByScore x xs).1 = Action.both_hands
        · rw [if_pos hbh] at ha
          refine ⟨maxByScore x xs, hmem, h05, hbound, ?_⟩
          simp only [List.mem_cons, List.mem_singleton, Prod.mk.injEq, List.not_mem_nil,
            or_false] at ha
          rcases ha with ⟨ha, _⟩ | ⟨ha, _⟩ | ⟨ha, _⟩
          · exact Or.inl (by rw [ha, hbh])
          · exact Or.inr ⟨hbh, Or.inl ha⟩
          · exact Or.inr ⟨hbh, Or.inr ha⟩
        · rw [if_neg hbh] at ha
          simp only [List.mem_singleton, Prod.mk.injEq] at ha
          exact ⟨maxByScore x xs, hmem, h05, hbound, Or.inl ha.1⟩
      · rw [if_neg h05] at ha
        simp at ha
    · intro a ha
      exfalso
      simp only [detectedActionsUpdates, hsc] at ha
      by_cases h05 : (0.5 : ℚ) < (maxByScore x xs).2
      · rw [if_pos h05] at ha
        by_cases hbh : (maxByScore x xs).1 = Action.both_hands
        · rw [if_pos hbh] at ha
          simp at ha
        · rw [if_neg hbh] at ha
          simp at ha
      · rw [if_neg h05] at ha
        simp at ha
    · intro h
      exact absurd h (by simp)
    · intro x' xs' heq h05
      injection heq with h1 h2
      subst h1
      subst h2
      simp only [detectedActionsUpdates, hsc]
      rw [if_pos h05]
      by_cases hbh : (maxByScore x xs).1 = Action.both_hands
      · rw [if_pos hbh]
        refine ⟨rfl, ?_, fun _ => ⟨?_, ?_⟩⟩
        · rw [hbh]; simp
        · simp
        · simp
      · rw [if_neg hbh]
        exact ⟨rfl, by simp, fun h => absurd h hbh⟩
    · intro x' xs' heq h05
      injection heq with h1 h2
      subst h1
      subst h2
      simp only [detectedActionsUpdates, hsc]
      rw [if_neg h05]

/-- C1 witness: on the concrete counterexample frame, applying the amended
theorem to the accepted `(left_hand, true)` update yields a best-scoring entry
above 0.5 dominating all scores, and the positive direction feeds the winner
`left_hand` as `detected=true`. -/
theorem c1_single_winner_updates_witness :
    (∃ best ∈ actionScores c1Baseline c1Features, (0.5 : ℚ) < best.2 ∧
      (∀ y ∈ actionScores c1Baseline c1Features, y.2 ≤ best.2) ∧
      (Action.left_hand = best.1 ∨ (best.1 = Action.both_hands ∧
        (Action.left_hand = Action.left_hand ∨ Action.left_hand = Action.right_hand)))) ∧
    ((maxByScore (Action.left_hand, 1) []).1, true) ∈
      detectedActionsUpdates c1Baseline c1Features := by
  constructor
  · refine (c1_single_winner_updates c1Baseline c1Features).1 Action.left_hand ?_
    norm_num [detectedActionsUpdates, actionScores, actionOrder, rawActionDetected,
      detectHandRaise, detectFootRaise, detectKneeRaise, detectHeadTurn, detectBothHandsRaise,
      calculateActionConfidence, handRaiseConfidence, footRaiseConfidence, kneeRaiseConfidence,
      headTurnConfidence, maxByScore, otherSide, PoseFeatures.wrist, PoseFeatures.shoulder,
      PoseFeatures.ankle, PoseFeatures.knee, HAND_RAISE_THRESHOLD, FOOT_RAISE_THRESHOLD,
      c1Baseline, c1Features, min_def, max_def, List.filterMap_cons, List.filterMap_nil]
    split <;> simp
  · refine ((c1_single_winner_updates c1Baseline c1Features).2.2.2.1 (Action.left_hand, 1) []
      ?_ ?_).2.1
    · norm_num [actionScores, actionOrder, rawActionDetected,
        detectHandRaise, detectFootRaise, detectKneeRaise, detectHeadTurn, detectBothHandsRaise,
        calculateActionConfidence, handRaiseConfidence, footRaiseConfidence, kneeRaiseConfidence,
        headTurnConfidence, otherSide, PoseFeatures.wrist, PoseFeatures.shoulder,
        PoseFeatures.ankle, PoseFeatures.knee, HAND_RAISE_THRESHOLD, FOOT_RAISE_THRESHOLD,
        c1Baseline, c1Features, min_def, max_def, List.filterMap_cons, List.filterMap_nil]
    · norm_num [maxByScore]

/-- Baseline of the C6 scenario: raw right wrist at y=0.5, raw right shoulder
at y=0.3 (the spec's concrete mirror-correction example). -/
def c6Baseline : PoseFeatures where
  left_wrist := ⟨0.6, 0.5, 0⟩
  right_wrist := ⟨0.4, 0.5, 0⟩
  left_ankle := ⟨0.6, 0.9, 0⟩
  right_ankle := ⟨0.4, 0.9, 0⟩
  left_shoulder := ⟨0.6, 0.3, 0⟩
  right_shoulder := ⟨0.4, 0.3, 0⟩
  left_knee := ⟨0.6, 0.7, 0⟩
  right_knee := ⟨0.4, 0.7, 0⟩
  nose := ⟨0.5, 0.2, 0⟩

/-- C6 frame with the raw right wrist at y=0.40 (relative-height diff 0.10). -/
def c6Current40 : PoseFeatures := { c6Baseline with right_wrist := ⟨0.4, 0.4, 0⟩ }

/-- C6 frame with the raw right wrist at y=0.30 (relative-height diff 0.20). -/
def c6Current30 : PoseFeatures := { c6Baseline with right_wrist := ⟨0.4, 0.3, 0⟩ }

/-- C6: the `left_hand` check reads the raw right-side wrist and shoulder and
detects iff the baseline relative wrist height minus the current relative
wrist height exceeds 0.15; with baseline right-wrist.y=0.5 and
right-shoulder.y=0.3, a current right-wrist.y=0.40 (diff 0.10) does not detect
`left_hand` while a current right-wrist.y=0.30 (diff 0.20) does. -/
theorem c6_left_hand_mirror_threshold :
    (∀ baseline current_features : PoseFeatures,
      detectHandRaise baseline current_features Side.left = true ↔
        (baseline.right_wrist.y - baseline.right_shoulder.y) -
            (current_features.right_wrist.y - current_features.right_shoulder.y) >
          (0.15 : ℚ)) ∧
    detectHandRaise c6Baseline c6Current40 Side.left = false ∧
    detectHandRaise c6Baseline c6Current30 Side.left = true := by
  refine ⟨?_, ?_, ?_⟩
  · intro b f
    simp [detectHandRaise, otherSide, PoseFeatures.wrist, PoseFeatures.shoulder,
      HAND_RAISE_THRESHOLD]
  · norm_num [detectHandRaise, otherSide, PoseFeatures.wrist, PoseFeatures.shoulder,
      HAND_RAISE_THRESHOLD, c6Baseline, c6Current40]
  · norm_num [detectHandRaise, otherSide, PoseFeatures.wrist, PoseFeatures.shoulder,
      HAND_RAISE_THRESHOLD, c6Baseline, c6Current30]

/-- C6 witness: the iff applied at the concrete rising frame. -/
theorem c6_left_hand_mirror_threshold_witness :
    detectHandRaise c6Baseline c6Current30 Side.left = true :=
  (c6_left_hand_mirror_threshold.1 c6Baseline c6Current30).mpr
    (by norm_num [c6Baseline, c6Current30])

/-- Symmetric frame for the C9 witness: both wrists exactly 0.2 below their
shoulders, so the two baseline-relative raise heights agree. -/
def c9Features : PoseFeatures where
  left_wrist := ⟨0.6, 0.5, 0⟩
  right_wrist := ⟨0.4, 0.5, 0⟩
  left_ankle := ⟨0.6, 0.9, 0⟩
  right_ankle := ⟨0.4, 0.9, 0⟩
  left_shoulder := ⟨0.6, 0.3, 0⟩
  right_shoulder := ⟨0.4, 0.3, 0⟩
  left_knee := ⟨0.6, 0.7, 0⟩
  right_knee := ⟨0.4, 0.7, 0⟩
  nose := ⟨0.5, 0.2, 0⟩

/-- C9: both-hands-raise detection returns true iff both single-hand raise
results passed in are already true and the absolute difference of the two
raw shoulder-to-wrist heights is strictly below 0.075 (half the hand-raise
threshold 0.15). -/
theorem c9_both_hands_iff (baseline current_features : PoseFeatures) (l r : Bool) :
    detectBothHandsRaise baseline current_features l r = true ↔
      l = true ∧ r = true ∧
        |(current_features.left_shoulder.y - current_features.left_wrist.y) -
            (current_features.right_shoulder.y - current_features.right_wrist.y)| <
          (0.075 : ℚ) := by
  cases l <;> cases r <;>
    simp [detectBothHandsRaise, HAND_RAISE_THRESHOLD] <;>
    constructor <;> intro h <;> linarith [h]

/-- C9 witness: equal raise heights with both single-hand flags true are
accepted. -/
theorem c9_both_hands_iff_witness :
    detectBothHandsRaise c9Features c9Features true true = true :=
  (c9_both_hands_iff c9Features c9Features true true).mpr
    ⟨rfl, rfl, by norm_num [c9Features]⟩

/-! ### Calibration (src/pose_detector.py, `_check_calibration` and friends)

MediaPipe landmarks carry `x, y, z, visibility`; the calibration checks read
eleven named landmarks, embedded as a structure.  The on-screen status strings
of `_check_calibration` are pure display output and are not modelled; the
result keeps the `completed` flag and the optional voice prompt. -/

structure Landmark where
  x : ℚ
  y : ℚ
  z : ℚ
  visibility : ℚ
deriving DecidableEq

structure PoseLandmarks where
  nose : Landmark
  left_shoulder : Landmark
  right_shoulder : Landmark
  left_hip : Landmark
  right_hip : Landmark
  left_ankle : Landmark
  right_ankle : Landmark
  left_wrist : Landmark
  right_wrist : Landmark
  left_knee : Landmark
  right_knee : Landmark
deriving DecidableEq

/-- The voice prompts used during calibration (`Messages.BODY_NOT_COMPLETE`,
`Messages.DISTANCE_TOO_CLOSE`, `Messages.DISTANCE_TOO_FAR`,
`Messages.CALIBRATION_SUCCESS_CANTONESE`). -/
inductive VoicePrompt where
  | body_not_complete
  | distance_too_close
  | distance_too_far
  | calibration_success
deriving DecidableEq

/-- `DetectionThresholds.CALIBRATION_FRAMES` (src/messages.py). -/
def CALIBRATION_FRAMES : ℕ := 15

/-- `DetectionThresholds.STABILITY_THRESHOLD` (src/messages.py). -/
def STABILITY_THRESHOLD : ℚ := 0.08

/-- The `required_landmarks` list of `_check_body_completeness`. -/
def requiredLandmarks (lm : PoseLandmarks) : List Landmark :=
  [lm.nose, lm.left_shoulder, lm.right_shoulder, lm.left_hip, lm.right_hip,
    lm.left_ankle, lm.right_ankle, lm.left_wrist, lm.right_wrist]

/-- `PoseDetector._check_body_completeness(landmarks)`: every required
landmark must have visibility at least 0.5 and sit inside the 5% frame
margin; the Boolean is the `complete` field of the returned dictionary (an
incomplete body always carries the `BODY_NOT_COMPLETE` prompt). -/
def checkBodyCompleteness (lm : PoseLandmarks) : Bool :=
  (requiredLandmarks lm).all fun p =>
    !(decide (p.visibility < 0.5)) &&
      !(decide (p.x < 0.05) || decide (p.x > 0.95) || decide (p.y < 0.05) ||
        decide (p.y > 0.95))

/-- `PoseDetector._check_distance(landmarks)`: shoulder width above 0.25 means
too close, below 0.12 too far; the result is the `prompt` field (none when the
distance is fine). -/
def checkDistance (lm : PoseLandmarks) : Option VoicePrompt :=
  let shoulder_width := |lm.left_shoulder.x - lm.right_shoulder.x|
  if shoulder_width > 0.25 then some .distance_too_close
  else if shoulder_width < 0.12 then some .distance_too_far
  else none

/-- `PoseDetector._is_standing_pose(landmarks)`: level shoulders, level hips
and an upright torso, each within `STABILITY_THRESHOLD`. -/
def isStandingPose (lm : PoseLandmarks) : Bool :=
  let shoulder_diff := |lm.left_shoulder.y - lm.right_shoulder.y|
  let hip_diff := |lm.left_hip.y - lm.right_hip.y|
  let torso_straight :=
    |(lm.left_shoulder.x + lm.right_shoulder.x) / 2 - (lm.left_hip.x + lm.right_hip.x) / 2|
  decide (shoulder_diff < STABILITY_THRESHOLD) && decide (hip_diff < STABILITY_THRESHOLD) &&
    decide (torso_straight < STABILITY_THRESHOLD)

/-- `PoseDetector._extract_pose_features(landmarks)`: snapshot of the nine
named joints as `{x, y, z}` records. -/
def extractPoseFeatures (lm : PoseLandmarks) : PoseFeatures where
  left_wrist := ⟨lm.left_wrist.x, lm.left_wrist.y, lm.left_wrist.z⟩
  right_wrist := ⟨lm.right_wrist.x, lm.right_wrist.y, lm.right_wrist.z⟩
  left_ankle := ⟨lm.left_ankle.x, lm.left_ankle.y, lm.left_ankle.z⟩
  right_ankle := ⟨lm.right_ankle.x, lm.right_ankle.y, lm.right_ankle.z⟩
  left_shoulder := ⟨lm.left_shoulder.x, lm.left_shoulder.y, lm.left_shoulder.z⟩
  right_shoulder := ⟨lm.right_shoulder.x, lm.right_shoulder.y, lm.right_shoulder.z⟩
  left_knee := ⟨lm.left_knee.x, lm.left_knee.y, lm.left_knee.z⟩
  right_knee := ⟨lm.right_knee.x, lm.right_knee.y, lm.right_knee.z⟩
  nose := ⟨lm.nose.x, lm.nose.y, lm.nose.z⟩

/-- `self.calibration_voice_played` — the one-shot flags of the three
calibration voice prompts. -/
structure VoiceFlags where
  body_incomplete : Bool
  distance_issue : Bool
  calibration_success : Bool
deriving DecidableEq

/-- Calibration-relevant fields of `PoseDetector`. -/
structure DetectorState where
  is_calibrated : Bool
  calibration_frames : ℕ
  baseline_pose : Option PoseFeatures
  calibration_voice_played : VoiceFlags
deriving DecidableEq

/-- State of a freshly constructed `PoseDetector`. -/
def DetectorState.init : DetectorState := ⟨false, 0, none, ⟨false, false, false⟩⟩

/-- The result dictionary of `_check_calibration` (status strings dropped). -/
structure CalibrationOutcome where
  completed : Bool
  voice_prompt : Option VoicePrompt
deriving DecidableEq

/-- `PoseDetector._check_calibration(landmarks)`: body completeness, then
distance, then standing-pose stability; a failing frame zeroes the
consecutive-stable-frame counter; a stable frame increments it and at
`CALIBRATION_FRAMES` (15) snapshots the baseline and calibrates.  Each voice
prompt is emitted only while its one-shot flag is unset, and emitting sets the
flag. -/
def checkCalibration (st : DetectorState) (lm : PoseLandmarks) :
    DetectorState × CalibrationOutcome :=
  if checkBodyCompleteness lm = false then
    if st.calibration_voice_played.body_incomplete = false then
      ({ st with
          calibration_frames := 0
          calibration_voice_played :=
            { st.calibration_voice_played with body_incomplete := true } },
        ⟨false, some .body_not_complete⟩)
    else
      ({ st with calibration_frames := 0 }, ⟨false, none⟩)
  else
    match checkDistance lm with
    | some p =>
      if st.calibration_voice_played.distance_issue = false then
        ({ st with
            calibration_frames := 0
            calibration_voice_played :=
              { st.calibration_voice_played with distance_issue := true } },
          ⟨false, some p⟩)
      else
        ({ st with calibration_frames := 0 }, ⟨false, none⟩)
    | none =>
      if isStandingPose lm then
        if CALIBRATION_FRAMES ≤ st.calibration_frames + 1 then
          if st.calibration_voice_played.calibration_success = false then
            ({ st with
                calibration_frames := st.calibration_frames + 1
                is_calibrated := true
                baseline_pose := some (extractPoseFeatures lm)
                calibration_voice_played :=
                  { st.calibration_voice_played with calibration_success := true } },
              ⟨true, some .calibration_success⟩)
          else
            ({ st with
                calibration_frames := st.calibration_frames + 1
                is_calibrated := true
                baseline_pose := some (extractPoseFeatures lm) },
              ⟨true, none⟩)
        else
          ({ st with calibration_frames := st.calibration_frames + 1 }, ⟨false, none⟩)
      else
        ({ st with calibration_frames := 0 }, ⟨false, none⟩)

/-- The calibration-relevant part of `PoseDetector.process_frame`: the
calibration check runs only while the detector is uncalibrated. -/
def processFrame (st : DetectorState) (lm : PoseLandmarks) :
    DetectorState × Option VoicePrompt :=
  if st.is_calibrated then (st, none)
  else
    let r := checkCalibration st lm
    (r.1, r.2.voice_prompt)

/-- Voice prompts emitted over a sequence of frames. -/
def runCalibration (st : DetectorState) : List PoseLandmarks → List (Option VoicePrompt)
  | [] => []
  | lm :: rest =>
    let r := processFrame st lm
    r.2 :: runCalibration r.1 rest

/-- `PoseDetector.reset_calibration()` restricted to the embedded fields (it
also clears `last_voice_prompts` and the global action buffer). -/
def resetCalibration (_st : DetectorState) : DetectorState :=
  ⟨false, 0, none, ⟨false, false, false⟩⟩

/-- C4: while uncalibrated, every frame that fails the body-completeness
check, the distance check or the standing-pose test resets the
consecutive-stable-frame counter to 0 without completing; a stable frame
increments the counter, and calibration completes exactly when the counter
reaches 15: the nine named joints are snapshotted as the baseline pose and
the detector transitions to the calibrated state. -/
theorem c4_fifteen_consecutive_stable_frames (st : DetectorState) (lm : PoseLandmarks) :
    (checkBodyCompleteness lm = false →
      (checkCalibration st lm).1.calibration_frames = 0 ∧
      (checkCalibration st lm).2.completed = false ∧
      (checkCalibration st lm).1.is_calibrated = st.is_calibrated) ∧
    (checkBodyCompleteness lm = true → checkDistance lm ≠ none →
      (checkCalibration st lm).1.calibration_frames = 0 ∧
      (checkCalibration st lm).2.completed = false ∧
      (checkCalibration st lm).1.is_calibrated = st.is_calibrated) ∧
    (checkBodyCompleteness lm = true → checkDistance lm = none → isStandingPose lm = false →
      (checkCalibration st lm).1.calibration_frames = 0 ∧
      (checkCalibration st lm).2.completed = false ∧
      (checkCalibration st lm).1.is_calibrated = st.is_calibrated) ∧
    (checkBodyCompleteness lm = true → checkDistance lm = none → isStandingPose lm = true →
      (checkCalibration st lm).1.calibration_frames = st.calibration_frames + 1 ∧
      (st.calibration_frames + 1 < 15 →
        (checkCalibration st lm).2.completed = false ∧
        (checkCalibration st lm).1.is_calibrated = st.is_calibrated ∧
        (checkCalibration st lm).1.baseline_pose = st.baseline_pose) ∧
      (15 ≤ st.calibration_frames + 1 →
        (checkCalibration st lm).2.completed = true ∧
        (checkCalibration st lm).1.is_calibrated = true ∧
        (checkCalibration st lm).1.baseline_pose = some (extractPoseFeatures lm))) := by
  refine ⟨?_, ?_, ?_, ?_⟩
  · intro h
    unfold checkCalibration
    rw [if_pos h]
    by_cases hf : st.calibration_voice_played.body_incomplete = false
    · rw [if_pos hf]; exact ⟨rfl, rfl, rfl⟩
    · rw [if_neg hf]; exact ⟨rfl, rfl, rfl⟩
  · intro h hd
    unfold checkCalibration
    rw [if_neg (by simp [h])]
    rcases hdm : checkDistance lm with _ | p
    · exact absurd hdm hd
    · simp only [hdm]
      by_cases hf : st.calibration_voice_played.distance_issue = false
      · rw [if_pos hf]; exact ⟨rfl, rfl, rfl⟩
      · rw [if_neg hf]; exact ⟨rfl, rfl, rfl⟩
  · intro h hd hs
    unfold checkCalibration
    rw [if_neg (by simp [h])]
    simp only [hd]
    rw [if_neg (by simp [hs])]
    exact ⟨rfl, rfl, rfl⟩
  · intro h hd hs
    unfold checkCalibration
    rw [if_neg (by simp [h])]
    simp only [hd]
    rw [if_pos hs]
    refine ⟨?_, ?_, ?_⟩
    · by_cases h15 : CALIBRATION_FRAMES ≤ st.calibration_frames + 1
      · rw [if_pos h15]
        by_cases hf : st.calibration_voice_played.calibration_success = false
        · rw [if_pos hf]
        · rw [if_neg hf]
      · rw [if_neg h15]
    · intro h15
      rw [if_neg (by unfold CALIBRATION_FRAMES; omega)]
      exact ⟨rfl, rfl, rfl⟩
    · intro h15
      rw [if_pos (by unfold CALIBRATION_FRAMES; omega)]
      by_cases hf : st.calibration_voice_played.calibration_success = false
      · rw [if_pos hf]; exact ⟨rfl, rfl, rfl⟩
      · rw [if_neg hf]; exact ⟨rfl, rfl, rfl⟩

/-- Frame for the C4 witness: the body is complete and at a good distance,
but the shoulders are far from level, so the standing-pose test fails. -/
def c4Landmarks : PoseLandmarks where
  nose := ⟨0.5, 0.1, 0, 0.9⟩
  left_shoulder := ⟨0.6, 0.3, 0, 0.9⟩
  right_shoulder := ⟨0.4, 0.5, 0, 0.9⟩
  left_hip := ⟨0.55, 0.6, 0, 0.9⟩
  right_hip := ⟨0.45, 0.6, 0, 0.9⟩
  left_ankle := ⟨0.6, 0.9, 0, 0.9⟩
  right_ankle := ⟨0.4, 0.9, 0, 0.9⟩
  left_wrist := ⟨0.65, 0.5, 0, 0.9⟩
  right_wrist := ⟨0.35, 0.5, 0, 0.9⟩
  left_knee := ⟨0.6, 0.75, 0, 0.9⟩
  right_knee := ⟨0.4, 0.75, 0, 0.9⟩

/-- C4 witness: with 10 consecutive stable frames already counted, one
unstable frame resets the counter to 0. -/
theorem c4_fifteen_consecutive_stable_frames_witness :
    (checkCalibration ⟨false, 10, none, ⟨false, false, false⟩⟩ c4Landmarks).1.calibration_frames
      = 0 :=
  ((c4_fifteen_consecutive_stable_frames ⟨false, 10, none, ⟨false, false, false⟩⟩
      c4Landmarks).2.2.1
    (by norm_num [checkBodyCompleteness, requiredLandmarks, c4Landmarks])
    (by norm_num [checkDistance, c4Landmarks, abs_of_nonneg, abs_of_nonpos])
    (by norm_num [isStandingPose, STABILITY_THRESHOLD, c4Landmarks, abs_of_nonneg,
      abs_of_nonpos])).1

/-! ### C5: one-shot calibration voice prompts -/

/-- Whether an optional prompt matches a prompt class. -/
def emittedMatches (pred : VoicePrompt → Bool) : Option VoicePrompt → Bool
  | none => false
  | some p => pred p

/-- Number of emitted prompts of a class in a run's outputs. -/
def countPrompts (pred : VoicePrompt → Bool) (l : List (Option VoicePrompt)) : ℕ :=
  l.countP (emittedMatches pred)

/-- The body-incomplete prompt class. -/
def isBodyPrompt : VoicePrompt → Bool := fun p => decide (p = VoicePrompt.body_not_complete)

/-- The distance-issue prompt class (too close or too far, both gated by the
single `distance_issue` flag). -/
def isDistancePrompt : VoicePrompt → Bool := fun p =>
  decide (p = VoicePrompt.distance_too_close) || decide (p = VoicePrompt.distance_too_far)

/-- The calibration-success prompt class. -/
def isSuccessPrompt : VoicePrompt → Bool := fun p => decide (p = VoicePrompt.calibration_success)

theorem checkDistance_cases (lm : PoseLandmarks) :
    checkDistance lm = none ∨ checkDistance lm = some VoicePrompt.distance_too_close ∨
      checkDistance lm = some VoicePrompt.distance_too_far := by
  unfold checkDistance
  dsimp only
  split
  · right; left; rfl
  · split
    · right; right; rfl
    · left; rfl

/-- Generic one-shot argument: if a prompt class is only emitted while its
flag is unset, and a step leaves the flag set exactly when it was set or the
class was just emitted, then a run emits the class at most once (and never
once the flag is set). -/
theorem run_prompt_once (pred : VoicePrompt → Bool) (flag : DetectorState → Bool)
    (hemit : ∀ st lm, emittedMatches pred (processFrame st lm).2 = true → flag st = false)
    (hflag : ∀ st lm, flag (processFrame st lm).1 =
      (flag st || emittedMatches pred (processFrame st lm).2)) :
    ∀ (lms : List PoseLandmarks) (st : DetectorState),
      countPrompts pred (runCalibration st lms) ≤ if flag st = true then 0 else 1 := by
  intro lms
  induction lms with
  | nil => intro st; simp [runCalibration, countPrompts]
  | cons lm rest ih =>
    intro st
    simp only [runCalibration, countPrompts, List.countP_cons]
    cases hem : emittedMatches pred (processFrame st lm).2
    · have hf : flag (processFrame st lm).1 = flag st := by
        rw [hflag, hem, Bool.or_false]
      have hrest := ih (processFrame st lm).1
      rw [hf] at hrest
      simpa [countPrompts, hem] using hrest
    · have hfst : flag st = false := hemit st lm hem
      have hf : flag (processFrame st lm).1 = true := by
        rw [hflag, hem, Bool.or_true]
      have hrest := ih (processFrame st lm).1
      rw [hf] at hrest
      have h0 : List.countP (emittedMatches pred)
          (runCalibration (processFrame st lm).1 rest) = 0 := by
        simpa [countPrompts] using hrest
      rw [hfst]
      simp [hem, h0]

theorem checkCalibration_body_step (st : DetectorState) (lm : PoseLandmarks) :
    (emittedMatches isBodyPrompt (checkCalibration st lm).2.voice_prompt = true →
      st.calibration_voice_played.body_incomplete = false) ∧
    (checkCalibration st lm).1.calibration_voice_played.body_incomplete =
      (st.calibration_voice_played.body_incomplete ||
        emittedMatches isBodyPrompt (checkCalibration st lm).2.voice_prompt) := by
  rcases checkDistance_cases lm with hd | hd | hd <;>
    unfold checkCalibration <;> simp only [hd] <;>
    split_ifs <;> simp_all [emittedMatches, isBodyPrompt]

theorem checkCalibration_distance_step (st : DetectorState) (lm : PoseLandmarks) :
    (emittedMatches isDistancePrompt (checkCalibration st lm).2.voice_prompt = true →
      st.calibration_voice_played.distance_issue = false) ∧
    (checkCalibration st lm).1.calibration_voice_played.distance_issue =
      (st.calibration_voice_played.distance_issue ||
        emittedMatches isDistancePrompt (checkCalibration st lm).2.voice_prompt) := by
  rcases checkDistance_cases lm with hd | hd | hd <;>
    unfold checkCalibration <;> simp only [hd] <;>
    split_ifs <;> simp_all [emittedMatches, isDistancePrompt]

theorem checkCalibration_success_step (st : DetectorState) (lm : PoseLandmarks) :
    (emittedMatches isSuccessPrompt (checkCalibration st lm).2.voice_prompt = true →
      st.calibration_voice_played.calibration_success = false) ∧
    (checkCalibration st lm).1.calibration_voice_played.calibration_success =
      (st.calibration_voice_played.calibration_success ||
        emittedMatches isSuccessPrompt (checkCalibration st lm).2.voice_prompt) := by
  rcases checkDistance_cases lm with hd | hd | hd <;>
    unfold checkCalibration <;> simp only [hd] <;>
    split_ifs <;> simp_all [emittedMatches, isSuccessPrompt]

theorem processFrame_body_emit (st : DetectorState) (lm : PoseLandmarks) :
    emittedMatches isBodyPrompt (processFrame st lm).2 = true →
    st.calibration_voice_played.body_incomplete = false := by
  unfold processFrame
  by_cases hc : st.is_calibrated
  · rw [if_pos hc]
    intro h
    exact absurd h (by simp [emittedMatches])
  · rw [if_neg hc]
    exact (checkCalibration_body_step st lm).1

theorem processFrame_body_flag (st : DetectorState) (lm : PoseLandmarks) :
    (processFrame st lm).1.calibration_voice_played.body_incomplete =
      (st.calibration_voice_played.body_incomplete ||
        emittedMatches isBodyPrompt (processFrame st lm).2) := by
  unfold processFrame
  by_cases hc : st.is_calibrated
  · rw [if_pos hc]; simp [emittedMatches]
  · rw [if_neg hc]
    exact (checkCalibration_body_step st lm).2

theorem processFrame_distance_emit (st : DetectorState) (lm : PoseLandmarks) :
    emittedMatches isDistancePrompt (processFrame st lm).2 = true →
    st.calibration_voice_played.distance_issue = false := by
  unfold processFrame
  by_cases hc : st.is_calibrated
  · rw [if_pos hc]
    intro h
    exact absurd h (by simp [emittedMatches])
  · rw [if_neg hc]
    exact (checkCalibration_distance_step st lm).1

theorem processFrame_distance_flag (st : DetectorState) (lm : PoseLandmarks) :
    (processFrame st lm).1.calibration_voice_played.distance_issue =
      (st.calibration_voice_played.distance_issue ||
        emittedMatches isDistancePrompt (processFrame st lm).2) := by
  unfold processFrame
  by_cases hc : st.is_calibrated
  · rw [if_pos hc]; simp [emittedMatches]
  · rw [if_neg hc]
    exact (checkCalibration_distance_step st lm).2

theorem processFrame_success_emit (st : DetectorState) (lm : PoseLandmarks) :
    emittedMatches isSuccessPrompt (processFrame st lm).2 = true →
    st.calibration_voice_played.calibration_success = false := by
  unfold processFrame
  by_cases hc : st.is_calibrated
  · rw [if_pos hc]
    intro h
    exact absurd h (by simp [emittedMatches])
  · rw [if_neg hc]
    exact (checkCalibration_success_step st lm).1

theorem processFrame_success_flag (st : DetectorState) (lm : PoseLandmarks) :
    (processFrame st lm).1.calibration_voice_played.calibration_success =
      (st.calibration_voice_played.calibration_success ||
        emittedMatches isSuccessPrompt (processFrame st lm).2) := by
  unfold processFrame
  by_cases hc : st.is_calibrated
  · rw [if_pos hc]; simp [emittedMatches]
  · rw [if_neg hc]
    exact (checkCalibration_success_step st lm).2

/-- C5: starting from cleared one-shot flags (a fresh construction or a
reset), a run of frames emits the body-incomplete prompt at most once, a
distance-issue prompt (too close or too far) at most once, and the
calibration-success prompt at most once, no matter how many frames satisfy
the triggering conditions; and `reset_calibration` clears all three flags so
each prompt can fire once more. -/
theorem c5_prompts_once_per_session :
    (∀ (st : DetectorState) (lms : List PoseLandmarks),
      st.calibration_voice_played = ⟨false, false, false⟩ →
      countPrompts isBodyPrompt (runCalibration st lms) ≤ 1 ∧
      countPrompts isDistancePrompt (runCalibration st lms) ≤ 1 ∧
      countPrompts isSuccessPrompt (runCalibration st lms) ≤ 1) ∧
    (∀ st : DetectorState,
      (resetCalibration st).calibration_voice_played = ⟨false, false, false⟩) := by
  constructor
  · intro st lms hfl
    refine ⟨?_, ?_, ?_⟩
    · have h := run_prompt_once isBodyPrompt
        (fun s => s.calibration_voice_played.body_incomplete)
        processFrame_body_emit processFrame_body_flag lms st
      rw [hfl] at h
      simpa using h
    · have h := run_prompt_once isDistancePrompt
        (fun s => s.calibration_voice_played.distance_issue)
        processFrame_distance_emit processFrame_distance_flag lms st
      rw [hfl] at h
      simpa using h
    · have h := run_prompt_once isSuccessPrompt
        (fun s => s.calibration_voice_played.calibration_success)
        processFrame_success_emit processFrame_success_flag lms st
      rw [hfl] at h
      simpa using h
  · intro st
    rfl

/-- Frame for the C5 witness: the nose is barely visible, so the
body-completeness check fails on every such frame. -/
def c5Landmarks : PoseLandmarks where
  nose := ⟨0.5, 0.1, 0, 0.3⟩
  left_shoulder := ⟨0.6, 0.3, 0, 0.9⟩
  right_shoulder := ⟨0.4, 0.3, 0, 0.9⟩
  left_hip := ⟨0.55, 0.6, 0, 0.9⟩
  right_hip := ⟨0.45, 0.6, 0, 0.9⟩
  left_ankle := ⟨0.6, 0.9, 0, 0.9⟩
  right_ankle := ⟨0.4, 0.9, 0, 0.9⟩
  left_wrist := ⟨0.65, 0.5, 0, 0.9⟩
  right_wrist := ⟨0.35, 0.5, 0, 0.9⟩
  left_knee := ⟨0.6, 0.75, 0, 0.9⟩
  right_knee := ⟨0.4, 0.75, 0, 0.9⟩

/-- C5 witness: two consecutive body-incomplete frames from the fresh state
still emit each prompt class at most once, and a reset clears the flags. -/
theorem c5_prompts_once_per_session_witness :
    (countPrompts isBodyPrompt (runCalibration DetectorState.init [c5Landmarks, c5Landmarks])
        ≤ 1 ∧
      countPrompts isDistancePrompt
        (runCalibration DetectorState.init [c5Landmarks, c5Landmarks]) ≤ 1 ∧
      countPrompts isSuccessPrompt
        (runCalibration DetectorState.init [c5Landmarks, c5Landmarks]) ≤ 1) ∧
    (resetCalibration DetectorState.init).calibration_voice_played =
      ⟨false, false, false⟩ :=
  ⟨c5_prompts_once_per_session.1 DetectorState.init [c5Landmarks, c5Landmarks] rfl,
    c5_prompts_once_per_session.2 DetectorState.init⟩

/-! ### KeyboardSimulator (src/utils.py)

`self.last_key_time` is a per-key dictionary of the time of the last
successful press, embedded as an association list; `press_key` is called with
the wall-clock time it reads from `time.time()`.  All three injection
back-ends (keyboard, pynput, log-only fallback) set `success = True` unless an
exception escapes, so the non-cooldown path succeeds and records the time. -/

/-- Dictionary lookup `self.last_key_time[key]` (with the `key in dict` test). -/
def lookupKeyTime : List (String × ℚ) → String → Option ℚ
  | [], _ => none
  | (k', t') :: rest, k => if k' = k then some t' else lookupKeyTime rest k

/-- Dictionary assignment `self.last_key_time[key] = current_time`. -/
def setKeyTime : List (String × ℚ) → String → ℚ → List (String × ℚ)
  | [], k, t => [(k, t)]
  | (k', t') :: rest, k, t =>
    if k' = k then (k, t) :: rest else (k', t') :: setKeyTime rest k t

/-- `KeyboardSimulator` state: `last_key_time` and the 0.5 s `key_cooldown`. -/
structure KeyboardSimState where
  last_key_time : List (String × ℚ)
  key_cooldown : ℚ
deriving DecidableEq

/-- `KeyboardSimulator.__init__`. -/
def KeyboardSimState.init : KeyboardSimState := ⟨[], 0.5⟩

/-- `KeyboardSimulator.press_key(key)` at wall-clock time `current_time`:
reject (no injection, state unchanged) while the same key's last successful
press is less than `key_cooldown` seconds old; otherwise inject and record the
time. -/
def pressKey (s : KeyboardSimState) (key : String) (current_time : ℚ) :
    Bool × KeyboardSimState :=
  match lookupKeyTime s.last_key_time key with
  | some last =>
    if current_time - last < s.key_cooldown then (false, s)
    else (true, { s with last_key_time := setKeyTime s.last_key_time key current_time })
  | none => (true, { s with last_key_time := setKeyTime s.last_key_time key current_time })

theorem lookupKeyTime_setKeyTime_self (l : List (String × ℚ)) (k : String) (t : ℚ) :
    lookupKeyTime (setKeyTime l k t) k = some t := by
  induction l with
  | nil => simp [setKeyTime, lookupKeyTime]
  | cons p rest ih =>
    obtain ⟨k', t'⟩ := p
    unfold setKeyTime
    by_cases h : k' = k
    · rw [if_pos h]
      simp [lookupKeyTime]
    · rw [if_neg h]
      unfold lookupKeyTime
      rw [if_neg h]
      exact ih

/-- C7: `press_key` enforces a 0.5-second per-key cooldown: a request less
than 0.5 s after that key's last successful press returns false and performs
no injection (state unchanged); a request 0.5 s or more after the last
successful press (or for a key never pressed) succeeds and records the new
time; in particular of two same-key requests within 0.5 s only the first
succeeds and a third request after the window elapses succeeds again. -/
theorem c7_per_key_cooldown :
    (∀ (s : KeyboardSimState) (key : String) (t last : ℚ),
      lookupKeyTime s.last_key_time key = some last → t - last < s.key_cooldown →
      pressKey s key t = (false, s)) ∧
    (∀ (s : KeyboardSimState) (key : String) (t last : ℚ),
      lookupKeyTime s.last_key_time key = some last → s.key_cooldown ≤ t - last →
      (pressKey s key t).1 = true ∧
      lookupKeyTime (pressKey s key t).2.last_key_time key = some t) ∧
    (∀ (s : KeyboardSimState) (key : String) (t : ℚ),
      lookupKeyTime s.last_key_time key = none →
      (pressKey s key t).1 = true ∧
      lookupKeyTime (pressKey s key t).2.last_key_time key = some t) ∧
    (∀ (key : String) (t1 t2 t3 : ℚ),
      t2 - t1 < 0.5 → (0.5 : ℚ) ≤ t3 - t1 →
      (pressKey KeyboardSimState.init key t1).1 = true ∧
      (pressKey (pressKey KeyboardSimState.init key t1).2 key t2).1 = false ∧
      (pressKey (pressKey (pressKey KeyboardSimState.init key t1).2 key t2).2 key t3).1
        = true) := by
  have hrej : ∀ (s : KeyboardSimState) (key : String) (t last : ℚ),
      lookupKeyTime s.last_key_time key = some last → t - last < s.key_cooldown →
      pressKey s key t = (false, s) := by
    intro s key t last h hcd
    unfold pressKey
    simp only [h]
    rw [if_pos hcd]
  have hacc : ∀ (s : KeyboardSimState) (key : String) (t last : ℚ),
      lookupKeyTime s.last_key_time key = some last → s.key_cooldown ≤ t - last →
      (pressKey s key t).1 = true ∧
      lookupKeyTime (pressKey s key t).2.last_key_time key = some t := by
    intro s key t last h hcd
    unfold pressKey
    simp only [h]
    rw [if_neg (not_lt.mpr hcd)]
    exact ⟨rfl, lookupKeyTime_setKeyTime_self _ _ _⟩
  have hfresh : ∀ (s : KeyboardSimState) (key : String) (t : ℚ),
      lookupKeyTime s.last_key_time key = none →
      (pressKey s key t).1 = true ∧
      lookupKeyTime (pressKey s key t).2.last_key_time key = some t := by
    intro s key t h
    unfold pressKey
    simp only [h]
    exact ⟨trivial, lookupKeyTime_setKeyTime_self _ _ _⟩
  refine ⟨hrej, hacc, hfresh, ?_⟩
  intro key t1 t2 t3 h12 h13
  have e1 : pressKey KeyboardSimState.init key t1 = (true, ⟨[(key, t1)], 0.5⟩) := by
    unfold pressKey KeyboardSimState.init
    simp [lookupKeyTime, setKeyTime]
  have hl : lookupKeyTime [(key, t1)] key = some t1 := by
    simp [lookupKeyTime]
  have e2 : pressKey (⟨[(key, t1)], 0.5⟩ : KeyboardSimState) key t2 =
      (false, ⟨[(key, t1)], 0.5⟩) :=
    hrej ⟨[(key, t1)], 0.5⟩ key t2 t1 hl h12
  refine ⟨by rw [e1], by rw [e1, e2], ?_⟩
  rw [e1, e2]
  exact (hacc ⟨[(key, t1)], 0.5⟩ key t3 t1 hl h13).1

/-- Key `'A'` (the `ACTION_KEYS` binding of `left_hand`). -/
def keyA : String := "A"

/-- C7 witness: presses of `A` at t=0, t=0.25 and t=1 succeed, fail and
succeed respectively. -/
theorem c7_per_key_cooldown_witness :
    (pressKey KeyboardSimState.init keyA 0).1 = true ∧
    (pressKey (pressKey KeyboardSimState.init keyA 0).2 keyA (1/4)).1 = false ∧
    (pressKey (pressKey (pressKey KeyboardSimState.init keyA 0).2 keyA (1/4)).2 keyA 1).1
      = true :=
  c7_per_key_cooldown.2.2.2 keyA 0 (1/4) 1 (by norm_num) (by norm_num)

/-! ### AudioManager priority queue (src/audio_manager.py)

`play_text` appends `{'file', 'text', 'priority', 'timestamp'}` to
`self.voice_queue` and re-sorts it with `list.sort(key=priority)`, which is a
*stable* sort; `_playback_worker` repeatedly pops index 0.  The stable sort is
embedded as a left fold of order-preserving insertion (a new item goes after
every item of priority less than or equal to its own), which on each
already-sorted queue coincides with Python's stable re-sort.  File generation
(`_generate_audio_file`, gTTS I/O) is passed in as an optional result. -/

structure VoiceQueueItem where
  file : String
  text : String
  priority : ℤ
  timestamp : ℚ
deriving DecidableEq

/-- Insert an item after every queued item of priority ≤ its own. -/
def insertByPriority (x : VoiceQueueItem) : List VoiceQueueItem → List VoiceQueueItem
  | [] => [x]
  | y :: ys => if y.priority ≤ x.priority then y :: insertByPriority x ys else x :: y :: ys

/-- `self.voice_queue.sort(key=lambda x: x['priority'])` (stable). -/
def sortQueue (l : List VoiceQueueItem) : List VoiceQueueItem :=
  l.foldl (fun acc x => insertByPriority x acc) []

/-- `AudioManager` fields relevant to queueing. -/
structure AudioState where
  is_muted : Bool
  is_initialized : Bool
  voice_queue : List VoiceQueueItem
deriving DecidableEq

/-- `AudioManager.play_text(text, priority)` called at wall-clock `now` with
the result of `_generate_audio_file(text)` passed in: rejected when muted,
uninitialized, or the file could not be generated; otherwise the item is
appended and the queue re-sorted by priority. -/
def playText (s : AudioState) (text : String) (priority : ℤ) (now : ℚ)
    (audio_file : Option String) : Bool × AudioState :=
  if s.is_muted then (false, s)
  else if s.is_initialized = false then (false, s)
  else
    match audio_file with
    | none => (false, s)
    | some f =>
      (true, { s with voice_queue := sortQueue (s.voice_queue ++ [⟨f, text, priority, now⟩]) })

/-- `_playback_worker`: repeatedly `pop(0)` and play — with no concurrent
enqueues the playback order is the queue front to back. -/
def drainQueue : List VoiceQueueItem → List VoiceQueueItem
  | [] => []
  | x :: rest => x :: drainQueue rest

/-- Queue ordering: ascending priority, ties broken by enqueue time. -/
def queueLE (a b : VoiceQueueItem) : Prop :=
  a.priority < b.priority ∨ (a.priority = b.priority ∧ a.timestamp ≤ b.timestamp)

/-- The queue invariant: sorted by ascending priority with ties in enqueue
order. -/
def QueueSorted (q : List VoiceQueueItem) : Prop := q.Pairwise queueLE

theorem sortQueue_append_single (q : List VoiceQueueItem) (x : VoiceQueueItem) :
    sortQueue (q ++ [x]) = insertByPriority x (sortQueue q) := by
  unfold sortQueue
  rw [List.foldl_append]
  rfl

theorem insertByPriority_of_all_le (x : VoiceQueueItem) :
    ∀ q : List VoiceQueueItem, (∀ y ∈ q, y.priority ≤ x.priority) →
      insertByPriority x q = q ++ [x] := by
  intro q
  induction q with
  | nil => intro _; rfl
  | cons y ys ih =>
    intro h
    unfold insertByPriority
    rw [if_pos (h y (List.mem_cons_self y ys))]
    rw [ih (fun z hz => h z (List.mem_cons_of_mem y hz))]
    rfl

theorem sortQueue_sorted_id (q : List VoiceQueueItem) (h : QueueSorted q) :
    sortQueue q = q := by
  induction q using List.reverseRecOn with
  | nil => rfl
  | append_singleton q x ih =>
    rw [sortQueue_append_single]
    have hsplit := List.pairwise_append.mp h
    rw [ih hsplit.1]
    apply insertByPriority_of_all_le
    intro y hy
    have hle := hsplit.2.2 y hy x (List.mem_singleton_self x)
    rcases hle with h1 | ⟨h1, _⟩
    · exact le_of_lt h1
    · exact le_of_eq h1

theorem mem_insertByPriority (x z : VoiceQueueItem) :
    ∀ q : List VoiceQueueItem, z ∈ insertByPriority x q → z = x ∨ z ∈ q := by
  intro q
  induction q with
  | nil => intro h; simp [insertByPriority] at h; exact Or.inl h
  | cons y ys ih =>
    intro h
    unfold insertByPriority at h
    split at h
    · rcases List.mem_cons.mp h with rfl | h
      · exact Or.inr (List.mem_cons_self _ _)
      · rcases ih h with h | h
        · exact Or.inl h
        · exact Or.inr (List.mem_cons_of_mem _ h)
    · rcases List.mem_cons.mp h with rfl | h
      · exact Or.inl rfl
      · exact Or.inr h

theorem insertByPriority_sorted (x : VoiceQueueItem) :
    ∀ q : List VoiceQueueItem, QueueSorted q → (∀ y ∈ q, y.timestamp ≤ x.timestamp) →
      QueueSorted (insertByPriority x q) := by
  intro q
  induction q with
  | nil =>
    intro _ _
    simp [insertByPriority, QueueSorted]
  | cons y ys ih =>
    intro hq hts
    have hq' := List.pairwise_cons.mp hq
    unfold insertByPriority
    by_cases h : y.priority ≤ x.priority
    · rw [if_pos h]
      rw [QueueSorted, List.pairwise_cons]
      refine ⟨?_, ih hq'.2 (fun z hz => hts z (List.mem_cons_of_mem y hz))⟩
      intro z hz
      rcases mem_insertByPriority x z ys hz with rfl | hz
      · rcases lt_or_eq_of_le h with h' | h'
        · exact Or.inl h'
        · exact Or.inr ⟨h', hts y (List.mem_cons_self y ys)⟩
      · exact hq'.1 z hz
    · rw [if_neg h]
      have hxy : x.priority < y.priority := lt_of_not_le h
      rw [QueueSorted, List.pairwise_cons]
      refine ⟨?_, hq⟩
      intro z hz
      rcases List.mem_cons.mp hz with rfl | hz
      · exact Or.inl hxy
      · rcases hq'.1 z hz with h1 | ⟨h1, _⟩
        · exact Or.inl (lt_trans hxy h1)
        · exact Or.inl (h1 ▸ hxy)

/-- Fresh `AudioManager` queue state (initialized, not muted). -/
def c8s0 : AudioState := ⟨false, true, []⟩

/-- Text/file label of the priority-2 item. -/
def c8ta : String := "a"

/-- Text/file label of the priority-0 item. -/
def c8tb : String := "b"

/-- Text/file label of the priority-1 item. -/
def c8tc : String := "c"

/-- Queue state after enqueuing priorities 2, 0, 1 (in that order, at times
1, 2, 3). -/
def c8s3 : AudioState :=
  (playText (playText (playText c8s0 c8ta 2 1 (some c8ta)).2 c8tb 0 2 (some c8tb)).2
    c8tc 1 3 (some c8tc)).2

/-- C8: the speech queue plays items in ascending numeric priority with ties
broken by enqueue order: `play_text` keeps the queue sorted by (priority,
enqueue time) whenever the new item's timestamp is not older than the queued
ones, the worker's next pop (the queue head) always carries the minimal
priority (and the earliest enqueue time among equal priorities), and
enqueuing priorities [2, 0, 1] in that order drains as [0, 1, 2]. -/
theorem c8_priority_queue_order :
    (∀ (s : AudioState) (text : String) (priority : ℤ) (now : ℚ) (f : Option String),
      QueueSorted s.voice_queue → (∀ y ∈ s.voice_queue, y.timestamp ≤ now) →
      QueueSorted (playText s text priority now f).2.voice_queue) ∧
    (∀ (x : VoiceQueueItem) (q : List VoiceQueueItem), QueueSorted (x :: q) →
      ∀ y ∈ x :: q, x.priority ≤ y.priority ∧
        (x.priority = y.priority → x.timestamp ≤ y.timestamp)) ∧
    (drainQueue c8s3.voice_queue).map (fun i => i.priority) = [0, 1, 2] := by
  refine ⟨?_, ?_, ?_⟩
  · intro s text priority now f hq hts
    unfold playText
    by_cases hm : s.is_muted = true
    · rw [if_pos hm]; exact hq
    · rw [if_neg hm]
      by_cases hi : s.is_initialized = false
      · rw [if_pos hi]; exact hq
      · rw [if_neg hi]
        rcases f with _ | f
        · exact hq
        · dsimp only
          rw [sortQueue_append_single, sortQueue_sorted_id _ hq]
          exact insertByPriority_sorted _ _ hq hts
  · intro x q h y hy
    rcases List.mem_cons.mp hy with rfl | hy
    · exact ⟨le_refl _, fun _ => le_refl _⟩
    · rcases (List.pairwise_cons.mp h).1 y hy with h1 | ⟨h1, h2⟩
      · refine ⟨le_of_lt h1, fun he => ?_⟩
        exact absurd h1 (by rw [he]; exact lt_irrefl _)
      · exact ⟨le_of_eq h1, fun _ => h2⟩
  · rfl

/-- C8 witness: enqueuing into the fresh empty queue preserves the order
invariant, and the head of the three-item example queue is minimal. -/
theorem c8_priority_queue_order_witness :
    QueueSorted (playText c8s0 c8ta 2 1 (some c8ta)).2.voice_queue :=
  c8_priority_queue_order.1 c8s0 c8ta 2 1 (some c8ta)
    (by simp [c8s0, QueueSorted]) (by simp [c8s0])

/-! ### CantoneseAudioManagerFixed.speak (src/audio_manager_cantonese_fixed.py)

`speak` returns `False` immediately when the backend is disabled, when the
text is empty or whitespace-only, or when an utterance is in flight; only
past those guards does it call `_speak_local_safe` or `_speak_gtts` (which
perform engine and pygame I/O, embedded as opaque continuation outcomes; the
guards themselves touch no state, logging aside). -/

/-- Python's `text.strip()`: drop leading and trailing whitespace (embedded
structurally so that concrete instances evaluate). -/
def stripped (s : String) : String :=
  ⟨((s.data.dropWhile Char.isWhitespace).reverse.dropWhile Char.isWhitespace).reverse⟩

/-- Fields of `CantoneseAudioManagerFixed` read by the `speak` guards. -/
structure CantoneseAudioState where
  is_enabled : Bool
  is_speaking : Bool
  use_local_voice : Bool
  volume : ℚ
  rate : ℤ
deriving DecidableEq

/-- Outcome of the guard cascade of `speak`: an immediate `False` return, or
a dispatch to one of the two playback helpers. -/
inductive SpeakOutcome where
  | rejected
  | speakLocal (text : String)
  | speakGtts (text : String)
deriving DecidableEq

/-- The guard cascade of `CantoneseAudioManagerFixed.speak(text)`:
disabled, then `not text or text.strip() == ""`, then `is_speaking`; past the
guards it dispatches on `use_local_voice`. -/
def speakGate (s : CantoneseAudioState) (text : String) : SpeakOutcome :=
  if s.is_enabled = false then .rejected
  else if text = "" ∨ stripped text = "" then .rejected
  else if s.is_speaking then .rejected
  else if s.use_local_voice then .speakLocal text
  else .speakGtts text

/-- `CantoneseAudioManagerFixed.speak(text)` with the playback helpers passed
in as a continuation (`backend`): a rejected call returns `False` with the
state untouched and never invokes the backend. -/
def speak (s : CantoneseAudioState) (text : String)
    (backend : SpeakOutcome → Bool × CantoneseAudioState) : Bool × CantoneseAudioState :=
  match speakGate s text with
  | .rejected => (false, s)
  | o => backend o

/-- C10: `speak` returns false without any synthesis, playback or engine
interaction — for every backend continuation, and with the state unchanged —
whenever the text is empty or whitespace-only (the gate resolves to
`rejected`, so no helper is dispatched); likewise when the backend is
disabled or an utterance is already in flight. -/
theorem c10_speak_rejects_blank_text :
    (∀ (s : CantoneseAudioState) (text : String)
      (backend : SpeakOutcome → Bool × CantoneseAudioState),
      stripped text = "" →
      speak s text backend = (false, s) ∧ speakGate s text = SpeakOutcome.rejected) ∧
    (∀ (s : CantoneseAudioState) (text : String)
      (backend : SpeakOutcome → Bool × CantoneseAudioState),
      s.is_enabled = false → speak s text backend = (false, s)) ∧
    (∀ (s : CantoneseAudioState) (text : String)
      (backend : SpeakOutcome → Bool × CantoneseAudioState),
      s.is_speaking = true → speak s text backend = (false, s)) := by
  refine ⟨?_, ?_, ?_⟩
  · intro s text backend h
    have hg : speakGate s text = SpeakOutcome.rejected := by
      unfold speakGate
      by_cases he : s.is_enabled = false
      · rw [if_pos he]
      · rw [if_neg he, if_pos (Or.inr h)]
    constructor
    · unfold speak
      rw [hg]
    · exact hg
  · intro s text backend h
    have hg : speakGate s text = SpeakOutcome.rejected := by
      unfold speakGate
      rw [if_pos h]
    unfold speak
    rw [hg]
  · intro s text backend h
    have hg : speakGate s text = SpeakOutcome.rejected := by
      unfold speakGate
      by_cases he : s.is_enabled = false
      · rw [if_pos he]
      · rw [if_neg he]
        by_cases ht : text = "" ∨ stripped text = ""
        · rw [if_pos ht]
        · rw [if_neg ht, if_pos h]
    unfold speak
    rw [hg]

/-- A whitespace-only utterance request. -/
def c10Blank : String := "   "

/-- Enabled, idle local-voice backend state. -/
def c10State : CantoneseAudioState := ⟨true, false, true, 0.7, 150⟩

/-- C10 witness: a three-space text is rejected with the state unchanged,
for a backend continuation that would otherwise report success. -/
theorem c10_speak_rejects_blank_text_witness :
    speak c10State c10Blank (fun _ => (true, c10State)) = (false, c10State) ∧
    speakGate c10State c10Blank = SpeakOutcome.rejected :=
  c10_speak_rejects_blank_text.1 c10State c10Blank (fun _ => (true, c10State))
    (by decide)

end PoseDetection
